import Mathlib

/-
Verification of the XLog profile/remote-storage module.

The Python source (profile_manager.py, yadisk_client.py) is embedded
shallowly:

  * Python strings are lists of Unicode code points (PyStr, List Nat);
  * Python bytes objects are lists of Fin 256;
  * the remote backend is a map from paths to stored objects; a stored
    object is either the raw bytes of a plain-text upload or the ordered
    paragraph list of a rich document, since the document codec is an
    external collaborator and only paragraph texts are observable;
  * Python exceptions that the code can actually raise across an
    operation boundary are modelled with Except.

Set-up definitions come first, then the embedded operations, then the
lemmas and the claim theorems.
-/

/-- A Python string, as its list of Unicode code points. -/
abbrev PyStr := List Nat

/-- Convert a Lean string literal to a PyStr. -/
def S (s : String) : PyStr := s.data.map Char.toNat

/-- Model of the separator-join of Python, sep.join(parts). -/
def pyJoin (sep : PyStr) : List PyStr → PyStr
  | [] => []
  | [x] => x
  | x :: y :: rest => x ++ sep ++ pyJoin sep (y :: rest)

/-- Model of the split of a Python string on a newline character,
content.split with a one-character newline separator. -/
def splitNL : PyStr → List PyStr
  | [] => [[]]
  | c :: cs =>
    if c = 10 then [] :: splitNL cs
    else
      match splitNL cs with
      | [] => [[c]]
      | h :: t => (c :: h) :: t

/-- Code points Python str.strip removes: the characters whose isspace
test is true (ASCII whitespace, the C1 and Unicode space separators). -/
def isPySpace (c : Nat) : Bool :=
  c = 9 ∨ c = 10 ∨ c = 11 ∨ c = 12 ∨ c = 13 ∨ c = 28 ∨ c = 29 ∨ c = 30 ∨
  c = 31 ∨ c = 32 ∨ c = 0x85 ∨ c = 0xA0 ∨ c = 0x1680 ∨
  (0x2000 ≤ c ∧ c ≤ 0x200A) ∨ c = 0x2028 ∨ c = 0x2029 ∨ c = 0x202F ∨
  c = 0x205F ∨ c = 0x3000

/-- Model of Python str.strip with no argument. -/
def pyStrip (l : PyStr) : PyStr :=
  ((l.dropWhile isPySpace).reverse.dropWhile isPySpace).reverse

/-- Model of Python str.endswith. -/
def pyEndsWith (l suf : PyStr) : Bool :=
  if suf.length ≤ l.length then decide (l.drop (l.length - suf.length) = suf)
  else false

/-- ASCII lower-casing of one code point, as done by str.lower on the
ASCII range (the paths this program builds are ASCII apart from the
profile name, and the suffix test only inspects the final characters). -/
def cpLower (c : Nat) : Nat := if 65 ≤ c ∧ c ≤ 90 then c + 32 else c

/-- The dispatch condition of read_file and write_file in
yadisk_client.py: remote_path.lower().endswith with the suffix .docx. -/
def isDocxPath (p : PyStr) : Bool := pyEndsWith (p.map cpLower) (S ".docx")

/-- Model of Python str.replace with the empty replacement string:
removes the non-overlapping occurrences of pat, left to right.  Fuel
recursion keeps the definition structural; the initial fuel is the
length of the subject plus one, which is enough since every step
consumes at least one character of the subject. -/
def removeSubAux (pat : PyStr) : Nat → PyStr → PyStr
  | 0, l => l
  | _ + 1, [] => []
  | fuel + 1, c :: cs =>
    if pat.isPrefixOf (c :: cs) then
      removeSubAux pat fuel ((c :: cs).drop pat.length)
    else c :: removeSubAux pat fuel cs

/-- file_name.replace of the suffix .docx with the empty string, used in
get_profile_files to derive the dictionary key from the file name. -/
def fileKey (fn : PyStr) : PyStr := removeSubAux (S ".docx") (fn.length + 1) fn

/-- Decimal digits of a natural number (fuel-structural so that it
reduces inside the kernel). -/
def natStrAux : Nat → Nat → PyStr
  | 0, _ => []
  | fuel + 1, n =>
    if n < 10 then [48 + n]
    else natStrAux fuel (n / 10) ++ [48 + n % 10]

/-- Decimal rendering of a natural number, as Python str of an int. -/
def natStr (n : Nat) : PyStr := natStrAux (n + 1) n

/-- Zero-padded two-digit field of strftime. -/
def pad2 (n : Nat) : PyStr := if n < 10 then S "0" ++ natStr n else natStr n

/-- Zero-padded four-digit year field of strftime. -/
def pad4 (n : Nat) : PyStr :=
  if n < 10 then S "000" ++ natStr n
  else if n < 100 then S "00" ++ natStr n
  else if n < 1000 then S "0" ++ natStr n
  else natStr n


/-
Byte-level text codecs used by _read_text_file and _write_text_file in
yadisk_client.py.  The codecs themselves live in the Python standard
library; they are embedded here with their standard tables, since the
fallback chain of _fallback_decode depends on exactly which byte strings
each codec rejects.
-/

/-- One byte of a Python bytes object. -/
abbrev Byte := Fin 256

/-- Build a byte from a natural number (callers stay below 256). -/
def mkB (n : Nat) : Byte := ⟨n % 256, by omega⟩

/-- Strict UTF-8 decoding of one byte string, fuel-structural.  It
accepts exactly what the strict utf-8 codec of Python accepts: no
overlong forms, no surrogates, nothing above 0x10FFFF. -/
def utf8DecodeAux : Nat → List Byte → Option (List Nat)
  | 0, _ => none
  | _ + 1, [] => some []
  | fuel + 1, b :: rest =>
    let v := b.val
    if v < 0x80 then (utf8DecodeAux fuel rest).map (v :: ·)
    else if 0xC2 ≤ v ∧ v ≤ 0xDF then
      match rest with
      | c :: rest2 =>
        if 0x80 ≤ c.val ∧ c.val ≤ 0xBF then
          (utf8DecodeAux fuel rest2).map (((v - 0xC0) * 64 + (c.val - 0x80)) :: ·)
        else none
      | [] => none
    else if 0xE0 ≤ v ∧ v ≤ 0xEF then
      match rest with
      | c1 :: c2 :: rest2 =>
        let lo1 := if v = 0xE0 then 0xA0 else 0x80
        let hi1 := if v = 0xED then 0x9F else 0xBF
        if (lo1 ≤ c1.val ∧ c1.val ≤ hi1) ∧ (0x80 ≤ c2.val ∧ c2.val ≤ 0xBF) then
          (utf8DecodeAux fuel rest2).map
            (((v - 0xE0) * 4096 + (c1.val - 0x80) * 64 + (c2.val - 0x80)) :: ·)
        else none
      | _ => none
    else if 0xF0 ≤ v ∧ v ≤ 0xF4 then
      match rest with
      | c1 :: c2 :: c3 :: rest2 =>
        let lo1 := if v = 0xF0 then 0x90 else 0x80
        let hi1 := if v = 0xF4 then 0x8F else 0xBF
        if (lo1 ≤ c1.val ∧ c1.val ≤ hi1) ∧ (0x80 ≤ c2.val ∧ c2.val ≤ 0xBF) ∧
            (0x80 ≤ c3.val ∧ c3.val ≤ 0xBF) then
          (utf8DecodeAux fuel rest2).map
            (((v - 0xF0) * 262144 + (c1.val - 0x80) * 4096 +
              (c2.val - 0x80) * 64 + (c3.val - 0x80)) :: ·)
        else none
      | _ => none
    else none

/-- raw_data.decode as strict utf-8: every decoding step consumes at
least one byte, so length-plus-one fuel always suffices. -/
def utf8Decode (bs : List Byte) : Option (List Nat) :=
  utf8DecodeAux (bs.length + 1) bs

/-- UTF-8 encoding of one code point (code points are valid Unicode
scalars in every string this program produces). -/
def utf8EncodeChar (c : Nat) : List Byte :=
  if c < 0x80 then [mkB c]
  else if c < 0x800 then [mkB (0xC0 + c / 64), mkB (0x80 + c % 64)]
  else if c < 0x10000 then
    [mkB (0xE0 + c / 4096), mkB (0x80 + (c / 64) % 64), mkB (0x80 + c % 64)]
  else
    [mkB (0xF0 + c / 262144), mkB (0x80 + (c / 4096) % 64),
     mkB (0x80 + (c / 64) % 64), mkB (0x80 + c % 64)]

/-- content.encode as utf-8, the byte string _write_text_file uploads. -/
def utf8Encode (cs : PyStr) : List Byte := cs.flatMap utf8EncodeChar

/-- Decode a byte string with a single-byte codec given by a per-byte
table; fails as soon as one byte is undefined in the codec. -/
def decodeSB (f : Byte → Option Nat) : List Byte → Option (List Nat)
  | [] => some []
  | b :: bs =>
    match f b with
    | none => none
    | some c => (decodeSB f bs).map (c :: ·)

/-- High half of the windows-1251 decoding table, for bytes 0x80-0xBF;
the entry of the undefined byte 0x98 is irrelevant (cp1251Byte rejects
0x98 before consulting the table). -/
def cp1251Table : List Nat :=
  [0x0402, 0x0403, 0x201A, 0x0453, 0x201E, 0x2026, 0x2020, 0x2021,
   0x20AC, 0x2030, 0x0409, 0x2039, 0x040A, 0x040C, 0x040B, 0x040F,
   0x0452, 0x2018, 0x2019, 0x201C, 0x201D, 0x2022, 0x2013, 0x2014,
   0x0000, 0x2122, 0x0459, 0x203A, 0x045A, 0x045C, 0x045B, 0x045F,
   0x00A0, 0x040E, 0x045E, 0x0408, 0x00A4, 0x0490, 0x00A6, 0x00A7,
   0x0401, 0x00A9, 0x0404, 0x00AB, 0x00AC, 0x00AD, 0x00AE, 0x0407,
   0x00B0, 0x00B1, 0x0406, 0x0456, 0x0491, 0x00B5, 0x00B6, 0x00B7,
   0x0451, 0x2116, 0x0454, 0x00BB, 0x0458, 0x0405, 0x0455, 0x0457]

/-- windows-1251 decoding of one byte; only byte 0x98 is undefined. -/
def cp1251Byte (b : Byte) : Option Nat :=
  if b.val < 0x80 then some b.val
  else if b.val = 0x98 then none
  else if 0xC0 ≤ b.val then some (b.val + 0x350)
  else some (cp1251Table.getD (b.val - 0x80) 0)

/-- High half of the koi8-r decoding table, for bytes 0x80-0xFF; koi8-r
defines every byte, so this codec never fails. -/
def koi8rTable : List Nat :=
  [0x2500, 0x2502, 0x250C, 0x2510, 0x2514, 0x2518, 0x251C, 0x2524,
   0x252C, 0x2534, 0x253C, 0x2580, 0x2584, 0x2588, 0x258C, 0x2590,
   0x2591, 0x2592, 0x2593, 0x2320, 0x25A0, 0x2219, 0x221A, 0x2248,
   0x2264, 0x2265, 0x00A0, 0x2321, 0x00B0, 0x00B2, 0x00B7, 0x00F7,
   0x2550, 0x2551, 0x2552, 0x0451, 0x2553, 0x2554, 0x2555, 0x2556,
   0x2557, 0x2558, 0x2559, 0x255A, 0x255B, 0x255C, 0x255D, 0x255E,
   0x255F, 0x2560, 0x2561, 0x0401, 0x2562, 0x2563, 0x2564, 0x2565,
   0x2566, 0x2567, 0x2568, 0x2569, 0x256A, 0x256B, 0x256C, 0x00A9,
   0x044E, 0x0430, 0x0431, 0x0446, 0x0434, 0x0435, 0x0444, 0x0433,
   0x0445, 0x0438, 0x0439, 0x043A, 0x043B, 0x043C, 0x043D, 0x043E,
   0x043F, 0x044F, 0x0440, 0x0441, 0x0442, 0x0443, 0x0436, 0x0432,
   0x044C, 0x044B, 0x0437, 0x0448, 0x044D, 0x0449, 0x0447, 0x044A,
   0x042E, 0x0410, 0x0411, 0x0426, 0x0414, 0x0415, 0x0424, 0x0413,
   0x0425, 0x0418, 0x0419, 0x041A, 0x041B, 0x041C, 0x041D, 0x041E,
   0x041F, 0x042F, 0x0420, 0x0421, 0x0422, 0x0423, 0x0416, 0x0412,
   0x042C, 0x042B, 0x0417, 0x0428, 0x042D, 0x0429, 0x0427, 0x042A]

/-- koi8-r decoding of one byte; total. -/
def koi8rByte (b : Byte) : Nat :=
  if b.val < 0x80 then b.val else koi8rTable.getD (b.val - 0x80) 0

/-- Box-drawing block of the cp866 decoding table, bytes 0xB0-0xDF. -/
def cp866BoxTable : List Nat :=
  [0x2591, 0x2592, 0x2593, 0x2502, 0x2524, 0x2561, 0x2562, 0x2556,
   0x2555, 0x2563, 0x2551, 0x2557, 0x255D, 0x255C, 0x255B, 0x2510,
   0x2514, 0x2534, 0x252C, 0x251C, 0x2500, 0x253C, 0x255E, 0x255F,
   0x255A, 0x2554, 0x2569, 0x2566, 0x2560, 0x2550, 0x256C, 0x2567,
   0x2568, 0x2564, 0x2565, 0x2559, 0x2558, 0x2552, 0x2553, 0x256B,
   0x256A, 0x2518, 0x250C, 0x2588, 0x2584, 0x258C, 0x2590, 0x2580]

/-- Final block of the cp866 decoding table, bytes 0xF0-0xFF. -/
def cp866TailTable : List Nat :=
  [0x0401, 0x0451, 0x0404, 0x0454, 0x0407, 0x0457, 0x040E, 0x045E,
   0x00B0, 0x2219, 0x00B7, 0x221A, 0x2116, 0x00A4, 0x25A0, 0x00A0]

/-- cp866 decoding of one byte; total. -/
def cp866Byte (b : Byte) : Nat :=
  if b.val < 0x80 then b.val
  else if b.val ≤ 0xAF then b.val + 0x390
  else if b.val ≤ 0xDF then cp866BoxTable.getD (b.val - 0xB0) 0
  else if b.val ≤ 0xEF then b.val + 0x360
  else cp866TailTable.getD (b.val - 0xF0) 0

/-- iso-8859-5 decoding of one byte as the Python codec does it
(bytes up to 0xA0 map to themselves); total. -/
def iso8859_5Byte (b : Byte) : Nat :=
  if b.val ≤ 0xA0 then b.val
  else if b.val = 0xAD then 0x00AD
  else if b.val = 0xF0 then 0x2116
  else if b.val = 0xF1 then 0x0451
  else if b.val = 0xFD then 0x00A7
  else b.val + 0x360

/-- The keyword-argument free decode of the five-codec fallback list,
one entry per encoding name in _fallback_decode. -/
def decodeUtf8 : List Byte → Option (List Nat) := utf8Decode
def decodeCp1251 : List Byte → Option (List Nat) := decodeSB cp1251Byte
def decodeKoi8r : List Byte → Option (List Nat) :=
  decodeSB (fun b => some (koi8rByte b))
def decodeCp866 : List Byte → Option (List Nat) :=
  decodeSB (fun b => some (cp866Byte b))
def decodeIso8859_5 : List Byte → Option (List Nat) :=
  decodeSB (fun b => some (iso8859_5Byte b))

/-- Strip a leading byte-order-mark character: the step
content.startswith of a feff character followed by dropping it. -/
def stripBOM : PyStr → PyStr
  | [] => []
  | c :: rest => if c = 0xFEFF then rest else c :: rest

/-- The for-loop of _fallback_decode: try each decoder in order and
return the first success with its leading BOM stripped. -/
def tryEncodings : List (List Byte → Option (List Nat)) → List Byte →
    Option PyStr
  | [], _ => none
  | d :: ds, bs =>
    match d bs with
    | some content => some (stripBOM content)
    | none => tryEncodings ds bs

/-- Permissive one-pass utf-8 decode dropping undecodable bytes, the
final raw_data.decode of _fallback_decode with errors ignored.  An
undecodable position is skipped one byte at a time; this branch is
unreachable (koi8-r accepts everything), which theorem
fallback_decode_matches_claim makes precise. -/
def utf8LossyAux (sub : Option Nat) : Nat → List Byte → List Nat
  | 0, _ => []
  | _ + 1, [] => []
  | fuel + 1, b :: rest =>
    let v := b.val
    if v < 0x80 then v :: utf8LossyAux sub fuel rest
    else if 0xC2 ≤ v ∧ v ≤ 0xDF then
      match rest with
      | c :: rest2 =>
        if 0x80 ≤ c.val ∧ c.val ≤ 0xBF then
          ((v - 0xC0) * 64 + (c.val - 0x80)) :: utf8LossyAux sub fuel rest2
        else sub.toList ++ utf8LossyAux sub fuel rest
      | [] => sub.toList
    else if 0xE0 ≤ v ∧ v ≤ 0xEF then
      match rest with
      | c1 :: c2 :: rest2 =>
        let lo1 := if v = 0xE0 then 0xA0 else 0x80
        let hi1 := if v = 0xED then 0x9F else 0xBF
        if (lo1 ≤ c1.val ∧ c1.val ≤ hi1) ∧ (0x80 ≤ c2.val ∧ c2.val ≤ 0xBF) then
          ((v - 0xE0) * 4096 + (c1.val - 0x80) * 64 + (c2.val - 0x80)) ::
            utf8LossyAux sub fuel rest2
        else sub.toList ++ utf8LossyAux sub fuel rest
      | _ => sub.toList ++ utf8LossyAux sub fuel rest
    else sub.toList ++ utf8LossyAux sub fuel rest

/-- raw_data.decode as utf-8 with errors ignored. -/
def utf8DecodeIgnore (bs : List Byte) : PyStr :=
  utf8LossyAux none (bs.length + 1) bs

/-- raw_data.decode as utf-8 with errors replaced: every undecodable
position becomes a replacement character 0xFFFD. -/
def utf8DecodeReplace (bs : List Byte) : PyStr :=
  utf8LossyAux (some 0xFFFD) (bs.length + 1) bs

/-- The fixed encoding list of _fallback_decode, in source order. -/
def fallbackEncodings : List (List Byte → Option (List Nat)) :=
  [decodeUtf8, decodeCp1251, decodeKoi8r, decodeCp866, decodeIso8859_5]

/-- YandexDiskClient._fallback_decode: try the five encodings in order,
return the first success with the BOM stripped; after the loop, decode
as utf-8 with errors ignored (that final decode cannot itself raise, so
the trailing bare except never fires and None is never produced
there). -/
def fallback_decode (bs : List Byte) : Option PyStr :=
  match tryEncodings fallbackEncodings bs with
  | some content => some content
  | none => some (utf8DecodeIgnore bs)

/-
The remote backend and the operations of YandexDiskClient and
ProfileManager.  The backend is a map from remote paths (relative to the
root folder, exactly the strings the Python code passes around) to
stored objects.  Folder creation is not observable through any of the
read operations, so ensure_folder_exists is a no-op on the map and
returns True, exactly as it does on a healthy backend.
-/

/-- One remote object: the raw bytes of a plain-text upload, or the
paragraph list of a rich document (the document codec is an external
collaborator; only the ordered paragraph texts are observable, which is
all read_docx extracts and all write_docx stores). -/
inductive RFile
  | txt (bytes : List Byte)
  | docx (paras : List PyStr)
deriving DecidableEq

/-- The remote backend state. -/
def Store := PyStr → Option RFile

/-- The backend with no objects. -/
def emptyStore : Store := fun _ => none

/-- Upload with overwrite: replace whatever is at the path. -/
def storePut (st : Store) (p : PyStr) (v : RFile) : Store :=
  fun q => if q = p then some v else st q

/-- Exceptions the embedded code can raise across a call boundary. -/
inductive PyError
  | typeError
  | valueError
deriving DecidableEq

/-- YandexDiskClient.ensure_folder_exists: walks the path segments and
creates the missing ones.  Directories are not observable by any read
or write operation modelled here, so the state is unchanged; on a
healthy backend the method returns True. -/
def ensure_folder_exists (st : Store) (_remote_path : PyStr) : Store × Bool :=
  (st, true)

/-- YandexDiskClient._write_text_file(remote_path, content): ensure the
parent folder exists, encode the content as utf-8 into a temporary
file, upload it with overwrite, return True.  Note the signature: there
is no append parameter, and the upload always overwrites. -/
def writeTextFile (st : Store) (remote_path : PyStr) (content : PyStr) :
    Store × Bool :=
  let st1 := (ensure_folder_exists st remote_path).1
  (storePut st1 remote_path (RFile.txt (utf8Encode content)), true)

/-- YandexDiskClient._read_text_file: None when the object is absent;
otherwise download the bytes and decode them.  The optional
charset-normalizer detector is an external collaborator and is modelled
as unavailable, so the bytes go straight to _fallback_decode, as the
source does when the import failed.  A stored rich document is a binary
blob whose raw bytes are not modelled; no code path under verification
reads a document blob through the text reader, and it is mapped to
None. -/
def readTextFile (st : Store) (remote_path : PyStr) : Option PyStr :=
  match st remote_path with
  | none => none
  | some (RFile.txt bs) => fallback_decode bs
  | some (RFile.docx _) => none

/-- YandexDiskClient.read_docx: None when the object is absent; download
the blob and extract the paragraph texts joined with newline.  Opening
a non-document blob makes the codec raise, the handler logs and
returns None. -/
def read_docx (st : Store) (remote_path : PyStr) : Option PyStr :=
  match st remote_path with
  | some (RFile.docx ps) => some (pyJoin (S "\n") ps)
  | _ => none

/-- YandexDiskClient.write_docx: ensure the parent folder exists, build
a fresh document with one paragraph per newline-separated line of the
content, upload with overwrite, return True. -/
def write_docx (st : Store) (remote_path : PyStr) (content : PyStr) :
    Store × Bool :=
  let st1 := (ensure_folder_exists st remote_path).1
  (storePut st1 remote_path (RFile.docx (splitNL content)), true)

/-- YandexDiskClient.read_file: dispatch on
remote_path.lower().endswith of .docx. -/
def read_file (st : Store) (remote_path : PyStr) : Option PyStr :=
  if isDocxPath remote_path then read_docx st remote_path
  else readTextFile st remote_path

/-- YandexDiskClient.write_file: the same dispatch, for writing. -/
def write_file (st : Store) (remote_path : PyStr) (content : PyStr) :
    Store × Bool :=
  if isDocxPath remote_path then write_docx st remote_path content
  else writeTextFile st remote_path content

/-- The fixed file list PROFILE_FILES of ProfileManager. -/
def PROFILE_FILES : List PyStr :=
  [S "key.docx", S "king.docx", S "rules.docx", S "library.docx",
   S "welcome.docx"]

/-- ProfileManager.get_profile_files: for each fixed file name, read
profile_name/file_name; a truthy content is stored under the key
file_name.replace of .docx, anything else becomes the empty string.
The per-file try/except cannot fire in the model because read_file
never raises.  The dictionary is returned in insertion order. -/
def get_profile_files (st : Store) (profile_name : PyStr) :
    List (PyStr × PyStr) :=
  PROFILE_FILES.map (fun fn =>
    (fileKey fn,
     match read_file st (profile_name ++ S "/" ++ fn) with
     | some content => if content = [] then [] else content
     | none => []))

/-- ProfileManager.save_profile_file: write profile_name/file_key.docx
through write_file and pass its result through. -/
def save_profile_file (st : Store) (profile_name file_key content : PyStr) :
    Store × Bool :=
  write_file st (profile_name ++ S "/" ++ file_key ++ S ".docx") content

/-- files.get(key) followed by the uses in build_context: the absent
case of the Python Optional collapses to the falsy empty string. -/
def lookupVal (files : List (PyStr × PyStr)) (k : PyStr) : PyStr :=
  match files.lookup k with
  | some v => v
  | none => []

/-- A wall-clock instant, the parts of datetime this code touches. -/
structure PyDateTime where
  year : Nat
  month : Nat
  day : Nat
  hour : Nat
  minute : Nat
  second : Nat
deriving DecidableEq

/-- Whether a year is a leap year, as the calendar of datetime has it. -/
def leapYear (y : Nat) : Bool :=
  (y % 4 = 0 ∧ y % 100 ≠ 0) ∨ y % 400 = 0

/-- Days in a month of the proleptic Gregorian calendar of datetime. -/
def daysInMonth (y m : Nat) : Nat :=
  if m = 2 then (if leapYear y then 29 else 28)
  else if m = 4 ∨ m = 6 ∨ m = 9 ∨ m = 11 then 30
  else 31

/-- datetime.replace of the day field: ValueError when the new day is
outside the valid range of the instant's month. -/
def pyReplaceDay (d : PyDateTime) (newDay : Nat) : Except PyError PyDateTime :=
  if 1 ≤ newDay ∧ newDay ≤ daysInMonth d.year d.month then
    Except.ok ⟨d.year, d.month, newDay, d.hour, d.minute, d.second⟩
  else Except.error PyError.valueError

/-- timestamp.strftime of the pattern year/month/day with zero-padded
month and day, used for the per-day log folder. -/
def fmtDatePath (d : PyDateTime) : PyStr :=
  pad4 d.year ++ S "/" ++ pad2 d.month ++ S "/" ++ pad2 d.day

/-- timestamp.strftime of the pattern hour:minute:second. -/
def fmtTime (d : PyDateTime) : PyStr :=
  pad2 d.hour ++ S ":" ++ pad2 d.minute ++ S ":" ++ pad2 d.second

/-- datetime.now().strftime of the full timestamp pattern used by
add_to_library. -/
def fmtTimestamp (d : PyDateTime) : PyStr :=
  pad4 d.year ++ S "-" ++ pad2 d.month ++ S "-" ++ pad2 d.day ++ S " " ++
  fmtTime d

/-- The log path profile_name/logs/date/log.txt built by save_message
and get_recent_messages. -/
def logPathFor (profile_name : PyStr) (d : PyDateTime) : PyStr :=
  profile_name ++ S "/logs/" ++ fmtDatePath d ++ S "/log.txt"

/-- The attempted body of ProfileManager.save_message: compute the log
path, ensure the folder, format the line, then call
self.disk._write_text_file(log_path, log_entry, append=True).  The
method _write_text_file accepts only (remote_path, content); the call
carries the unexpected keyword argument append, so Python raises
TypeError before any write happens. -/
def saveMessageAttempt (st : Store) (profile_name role text : PyStr)
    (timestamp : PyDateTime) : Except PyError (Store × Bool) :=
  let log_path := logPathFor profile_name timestamp
  let st1 := (ensure_folder_exists st
    (profile_name ++ S "/logs/" ++ fmtDatePath timestamp)).1
  let log_entry :=
    S "[" ++ fmtTime timestamp ++ S "] " ++ role ++ S ": " ++ text ++ S "\n"
  -- the call _write_text_file(log_path, log_entry, append=True):
  -- its signature has no append parameter, so the call itself raises.
  let _ := (st1, log_path, log_entry)
  Except.error PyError.typeError

/-- ProfileManager.save_message: the whole body sits in a try/except
that logs the failure, so the TypeError from the inner call is
swallowed and the backend is left untouched. -/
def save_message (st : Store) (profile_name role text : PyStr)
    (timestamp : PyDateTime) : Store :=
  match saveMessageAttempt st profile_name role text timestamp with
  | Except.ok (st1, _) => st1
  | Except.error _ => st

/-- The Optional collapse used inside get_recent_messages: a None read
and an empty read are both falsy. -/
def readOrEmpty (st : Store) (p : PyStr) : PyStr :=
  match readTextFile st p with
  | some s => s
  | none => []

/-- Python slicing lines[-limit:]: the whole list when limit is zero,
otherwise the last limit elements. -/
def pyTailSlice (l : List PyStr) (limit : Nat) : List PyStr :=
  if limit = 0 then l else l.drop (l.length - limit)

/-- ProfileManager.get_recent_messages: yesterday is computed first by
datetime.now().replace of day minus one — which raises ValueError on
the first day of a month and propagates, there being no handler — then
today's log is read, then yesterday's if today's was falsy; an empty
result returns the empty string, otherwise the content is stripped,
split on newline, cut to the last limit lines when there are more than
limit, and re-joined with newline.  Both datetime.now() calls are the
same instant now. -/
def get_recent_messages (st : Store) (profile_name : PyStr) (limit : Nat)
    (now : PyDateTime) : Except PyError PyStr :=
  match pyReplaceDay now (now.day - 1) with
  | Except.error e => Except.error e
  | Except.ok yesterday =>
    let c1 := readOrEmpty st (logPathFor profile_name now)
    let content :=
      if c1 = [] then readOrEmpty st (logPathFor profile_name yesterday)
      else c1
    if content = [] then Except.ok []
    else
      let lines := splitNL (pyStrip content)
      let last_lines :=
        if limit < lines.length then pyTailSlice lines limit else lines
      Except.ok (pyJoin (S "\n") last_lines)

/-- ProfileManager.build_context: read the five files, append the
persona, rules and knowledge parts for the truthy documents, then the
recent-messages part from get_recent_messages — whose ValueError, if
raised, propagates since build_context has no handler — and join the
parts with newline. -/
def build_context (st : Store) (profile_name : PyStr) (limit : Nat)
    (now : PyDateTime) : Except PyError PyStr :=
  let files := get_profile_files st profile_name
  let parts :=
    (if lookupVal files (S "king") ≠ [] then
      [S "ТЫ — ЛИЧНОСТЬ:\n" ++ lookupVal files (S "king") ++ S "\n"] else []) ++
    (if lookupVal files (S "rules") ≠ [] then
      [S "ПРАВИЛА ОБЩЕНИЯ:\n" ++ lookupVal files (S "rules") ++ S "\n"] else []) ++
    (if lookupVal files (S "library") ≠ [] then
      [S "ТВОИ ЗНАНИЯ И ОПЫТ:\n" ++ lookupVal files (S "library") ++ S "\n"] else [])
  match get_recent_messages st profile_name limit now with
  | Except.error e => Except.error e
  | Except.ok recent =>
    let parts2 := parts ++
      (if recent ≠ [] then
        [S "ПОСЛЕДНИЕ СООБЩЕНИЯ В ЧАТЕ:\n" ++ recent ++ S "\n"] else [])
    Except.ok (pyJoin (S "\n") parts2)

/-- ProfileManager.read_profile_file: read all files and return the
entry of the requested key; the try/except cannot fire in the model. -/
def read_profile_file (st : Store) (profile_name file_key : PyStr) :
    Option PyStr :=
  (get_profile_files st profile_name).lookup file_key

/-- ProfileManager.add_to_library: read the current library content,
then write back either the old content plus a blank line, a timestamped
marker line and the new text (current truthy), or the new text alone
(current falsy). -/
def add_to_library (st : Store) (profile_name text : PyStr)
    (now : PyDateTime) : Store × Bool :=
  let current :=
    match read_profile_file st profile_name (S "library") with
    | some v => v
    | none => []
  let new_content :=
    if current ≠ [] then
      current ++ S "\n\n[" ++ fmtTimestamp now ++ S "] ДОБАВЛЕНО:\n" ++ text
    else text
  save_profile_file st profile_name (S "library") new_content

/-
Definitions written from the words of the specification, for the
refinement claims.  Each is compared against the corresponding
source-derived definition by a theorem below.
-/

/-- The decoder as the specification words it: try the fixed ordered
encoding list, return the first success with the BOM stripped, and if
none of the five succeeds decode as utf-8 replacing invalid bytes with
replacement characters rather than failing. -/
def fallbackDecodeClaim (bs : List Byte) : Option PyStr :=
  match tryEncodings fallbackEncodings bs with
  | some content => some content
  | none => some (utf8DecodeReplace bs)

/-- The log tail as the specification words it: consult today's
content, or yesterday's when today's is empty; empty when both are;
otherwise strip, split into lines, keep at most the last limit lines
(all of them when fewer exist) and re-join with newline. -/
def recentTailSpec (todayC yesterdayC : PyStr) (limit : Nat) : PyStr :=
  let content := if todayC ≠ [] then todayC else yesterdayC
  if content = [] then []
  else
    let lines := splitNL (pyStrip content)
    pyJoin (S "\n") (lines.drop (lines.length - limit))

/-- The context as the specification words it: the labeled persona,
rules, knowledge and recent-messages blocks in fixed order, each block
omitted entirely when its source is empty, the blocks joined with a
blank line between them (each emitted block carries the trailing
newline the code appends after its body). -/
def buildContextSpec (king rules library recent : PyStr) : PyStr :=
  let blocks :=
    (if king ≠ [] then [S "ТЫ — ЛИЧНОСТЬ:\n" ++ king] else []) ++
    (if rules ≠ [] then [S "ПРАВИЛА ОБЩЕНИЯ:\n" ++ rules] else []) ++
    (if library ≠ [] then [S "ТВОИ ЗНАНИЯ И ОПЫТ:\n" ++ library] else []) ++
    (if recent ≠ [] then [S "ПОСЛЕДНИЕ СООБЩЕНИЯ В ЧАТЕ:\n" ++ recent] else [])
  match blocks with
  | [] => []
  | _ => pyJoin (S "\n\n") blocks ++ S "\n"

/-- The value get_profile_files records for one file name: the read
content when truthy, the empty string otherwise. -/
def docVal (st : Store) (profile_name fn : PyStr) : PyStr :=
  match read_file st (profile_name ++ S "/" ++ fn) with
  | some content => if content = [] then [] else content
  | none => []

/-
Helper lemmas, shared between the claim theorems.
-/

lemma splitNL_ne_nil (l : PyStr) : splitNL l ≠ [] := by
  cases l with
  | nil => simp [splitNL]
  | cons c cs =>
    simp only [splitNL]
    split
    · simp
    · cases h : splitNL cs <;> simp

lemma pyJoin_splitNL (l : PyStr) : pyJoin (S "\n") (splitNL l) = l := by
  have hnl : S "\n" = [10] := rfl
  rw [hnl]
  induction l with
  | nil => rfl
  | cons c cs ih =>
    simp only [splitNL]
    by_cases hc : c = 10
    · subst hc
      simp only [if_pos rfl]
      obtain ⟨h, t, ht⟩ : ∃ h t, splitNL cs = h :: t := by
        cases hs : splitNL cs with
        | nil => exact absurd hs (splitNL_ne_nil cs)
        | cons h t => exact ⟨h, t, rfl⟩
      rw [ht] at ih ⊢
      show [] ++ [10] ++ pyJoin [10] (h :: t) = 10 :: cs
      rw [List.nil_append, List.cons_append, List.nil_append, ih]
    · rw [if_neg hc]
      obtain ⟨h, t, ht⟩ : ∃ h t, splitNL cs = h :: t := by
        cases hs : splitNL cs with
        | nil => exact absurd hs (splitNL_ne_nil cs)
        | cons h t => exact ⟨h, t, rfl⟩
      rw [ht] at ih ⊢
      cases t with
      | nil =>
        show c :: h = c :: cs
        rw [show pyJoin [10] [h] = h from rfl] at ih
        rw [ih]
      | cons t1 t2 =>
        show (c :: h) ++ [10] ++ pyJoin [10] (t1 :: t2) = c :: cs
        rw [← ih]
        simp [pyJoin]

lemma decodeSB_total (g : Byte → Nat) (bs : List Byte) :
    decodeSB (fun b => some (g b)) bs = some (bs.map g) := by
  induction bs with
  | nil => rfl
  | cons b bs ih => simp [decodeSB, ih]

lemma tryEncodings_fallback_ne_none (bs : List Byte) :
    tryEncodings fallbackEncodings bs ≠ none := by
  simp only [fallbackEncodings, tryEncodings]
  cases h1 : decodeUtf8 bs
  · cases h2 : decodeCp1251 bs
    · rw [show decodeKoi8r bs = some (bs.map koi8rByte) from
        decodeSB_total koi8rByte bs]
      simp
    · simp
  · simp

lemma utf8Encode_cons_ascii (c : Nat) (hc : c < 128) (T : PyStr) :
    utf8Encode (c :: T) = mkB c :: utf8Encode T := by
  simp [utf8Encode, utf8EncodeChar, hc]

lemma utf8Encode_ascii_length (T : PyStr) (h : ∀ c ∈ T, c < 128) :
    (utf8Encode T).length = T.length := by
  induction T with
  | nil => rfl
  | cons c T ih =>
    rw [utf8Encode_cons_ascii c (h c (by simp)) T]
    simp only [List.length_cons]
    rw [ih (fun x hx => h x (by simp [hx]))]

lemma mkB_val_ascii (c : Nat) (hc : c < 128) : (mkB c).val = c := by
  simp only [mkB]
  omega

lemma utf8DecodeAux_encode_ascii (T : PyStr) (h : ∀ c ∈ T, c < 128) :
    ∀ fuel, T.length < fuel → utf8DecodeAux fuel (utf8Encode T) = some T := by
  induction T with
  | nil =>
    intro fuel hf
    obtain ⟨f, rfl⟩ : ∃ f, fuel = f + 1 := ⟨fuel - 1, by omega⟩
    rfl
  | cons c T ih =>
    intro fuel hf
    obtain ⟨f, rfl⟩ : ∃ f, fuel = f + 1 := ⟨fuel - 1, by omega⟩
    have hc : c < 128 := h c (by simp)
    rw [utf8Encode_cons_ascii c hc T]
    simp only [utf8DecodeAux, mkB_val_ascii c hc]
    rw [if_pos (by omega : c < 0x80)]
    rw [ih (fun x hx => h x (by simp [hx])) f (by simp at hf; omega)]
    rfl

lemma utf8_roundtrip_ascii (T : PyStr) (h : ∀ c ∈ T, c < 128) :
    utf8Decode (utf8Encode T) = some T := by
  unfold utf8Decode
  exact utf8DecodeAux_encode_ascii T h _
    (by rw [utf8Encode_ascii_length T h]; omega)

lemma stripBOM_ascii (T : PyStr) (h : ∀ c ∈ T, c < 128) :
    stripBOM T = T := by
  cases T with
  | nil => rfl
  | cons c rest =>
    have := h c (by simp)
    simp only [stripBOM]
    rw [if_neg (by omega)]

lemma pyEndsWith_append (p s suf : PyStr) (h : suf.length ≤ s.length) :
    pyEndsWith (p ++ s) suf = pyEndsWith s suf := by
  unfold pyEndsWith
  rw [List.length_append, if_pos (by omega), if_pos h]
  have hidx : p.length + s.length - suf.length =
      p.length + (s.length - suf.length) := by omega
  rw [hidx, List.drop_append]

lemma isDocxPath_append (p s : PyStr) (h5 : 5 ≤ s.length) :
    isDocxPath (p ++ s) = isDocxPath s := by
  unfold isDocxPath
  rw [List.map_append]
  exact pyEndsWith_append _ _ _
    (by rw [List.length_map, show (S ".docx").length = 5 from rfl]; exact h5)

lemma get_profile_files_spec (st : Store) (p : PyStr) :
    get_profile_files st p =
      [(S "key", docVal st p (S "key.docx")),
       (S "king", docVal st p (S "king.docx")),
       (S "rules", docVal st p (S "rules.docx")),
       (S "library", docVal st p (S "library.docx")),
       (S "welcome", docVal st p (S "welcome.docx"))] := by
  unfold get_profile_files PROFILE_FILES docVal
  simp only [List.map,
    show fileKey (S "key.docx") = S "key" from by decide,
    show fileKey (S "king.docx") = S "king" from by decide,
    show fileKey (S "rules.docx") = S "rules" from by decide,
    show fileKey (S "library.docx") = S "library" from by decide,
    show fileKey (S "welcome.docx") = S "welcome" from by decide]

lemma lookupVal_king (st : Store) (p : PyStr) :
    lookupVal (get_profile_files st p) (S "king") =
      docVal st p (S "king.docx") := by
  rw [get_profile_files_spec]
  simp [lookupVal, List.lookup,
    show (S "king" == S "key") = false from by decide,
    show (S "king" == S "king") = true from by decide]

lemma lookupVal_rules (st : Store) (p : PyStr) :
    lookupVal (get_profile_files st p) (S "rules") =
      docVal st p (S "rules.docx") := by
  rw [get_profile_files_spec]
  simp [lookupVal, List.lookup,
    show (S "rules" == S "key") = false from by decide,
    show (S "rules" == S "king") = false from by decide,
    show (S "rules" == S "rules") = true from by decide]

lemma lookupVal_library (st : Store) (p : PyStr) :
    lookupVal (get_profile_files st p) (S "library") =
      docVal st p (S "library.docx") := by
  rw [get_profile_files_spec]
  simp [lookupVal, List.lookup,
    show (S "library" == S "key") = false from by decide,
    show (S "library" == S "king") = false from by decide,
    show (S "library" == S "rules") = false from by decide,
    show (S "library" == S "library") = true from by decide]

lemma read_profile_file_library (st : Store) (p : PyStr) :
    read_profile_file st p (S "library") =
      some (docVal st p (S "library.docx")) := by
  unfold read_profile_file
  rw [get_profile_files_spec]
  simp [List.lookup,
    show (S "library" == S "key") = false from by decide,
    show (S "library" == S "king") = false from by decide,
    show (S "library" == S "rules") = false from by decide,
    show (S "library" == S "library") = true from by decide]

lemma storePut_same (st : Store) (p : PyStr) (v : RFile) :
    storePut st p v p = some v := by
  simp [storePut]

lemma library_path_concat (p : PyStr) :
    p ++ S "/" ++ S "library" ++ S ".docx" = p ++ S "/" ++ S "library.docx" := by
  rw [List.append_assoc (p ++ S "/") (S "library") (S ".docx"),
    show S "library" ++ S ".docx" = S "library.docx" from by decide]

lemma tail_slice_eq_drop (lines : List PyStr) (limit : Nat) (hl : 0 < limit) :
    (if limit < lines.length then pyTailSlice lines limit else lines) =
    lines.drop (lines.length - limit) := by
  by_cases h : limit < lines.length
  · rw [if_pos h]
    unfold pyTailSlice
    rw [if_neg (by omega)]
  · rw [if_neg h, show lines.length - limit = 0 from by omega, List.drop_zero]

lemma pyJoin_map_append_nl (bs : List PyStr) (hb : bs ≠ []) :
    pyJoin (S "\n") (bs.map (· ++ S "\n")) = pyJoin (S "\n\n") bs ++ S "\n" := by
  induction bs with
  | nil => exact absurd rfl hb
  | cons b rest ih =>
    cases rest with
    | nil => rfl
    | cons b2 rest2 =>
      have ih2 := ih (by simp)
      simp only [List.map, pyJoin] at ih2 ⊢
      rw [ih2]
      simp [List.append_assoc, show S "\n\n" = S "\n" ++ S "\n" from rfl]

lemma content_select_eq (c1 c2 : PyStr) :
    (if c1 = [] then c2 else c1) = (if c1 ≠ [] then c1 else c2) := by
  by_cases h : c1 = [] <;> simp [h]

lemma get_recent_messages_ok (st : Store) (p : PyStr) (limit : Nat)
    (now : PyDateTime) (h2 : 2 ≤ now.day)
    (hv : now.day ≤ daysInMonth now.year now.month) (hl : 0 < limit) :
    get_recent_messages st p limit now =
      Except.ok (recentTailSpec (readOrEmpty st (logPathFor p now))
        (readOrEmpty st (logPathFor p
          ⟨now.year, now.month, now.day - 1, now.hour, now.minute, now.second⟩))
        limit) := by
  unfold get_recent_messages
  rw [show pyReplaceDay now (now.day - 1) = Except.ok
      ⟨now.year, now.month, now.day - 1, now.hour, now.minute, now.second⟩ from by
    unfold pyReplaceDay
    rw [if_pos ⟨by omega, by omega⟩]]
  dsimp only
  unfold recentTailSpec
  dsimp only
  rw [content_select_eq]
  by_cases hc : (if readOrEmpty st (logPathFor p now) ≠ [] then
      readOrEmpty st (logPathFor p now)
    else readOrEmpty st (logPathFor p
      ⟨now.year, now.month, now.day - 1, now.hour, now.minute, now.second⟩)) = []
  · rw [if_pos hc, if_pos hc]
  · rw [if_neg hc, if_neg hc, tail_slice_eq_drop _ _ hl]

lemma buildContextSpec_eq_join (K R L M : PyStr) :
    buildContextSpec K R L M = pyJoin (S "\n")
      (((if K ≠ [] then [S "ТЫ — ЛИЧНОСТЬ:\n" ++ K] else []) ++
        (if R ≠ [] then [S "ПРАВИЛА ОБЩЕНИЯ:\n" ++ R] else []) ++
        (if L ≠ [] then [S "ТВОИ ЗНАНИЯ И ОПЫТ:\n" ++ L] else []) ++
        (if M ≠ [] then [S "ПОСЛЕДНИЕ СООБЩЕНИЯ В ЧАТЕ:\n" ++ M] else [])).map
        (· ++ S "\n")) := by
  unfold buildContextSpec
  dsimp only
  generalize ((if K ≠ [] then [S "ТЫ — ЛИЧНОСТЬ:\n" ++ K] else []) ++
    (if R ≠ [] then [S "ПРАВИЛА ОБЩЕНИЯ:\n" ++ R] else []) ++
    (if L ≠ [] then [S "ТВОИ ЗНАНИЯ И ОПЫТ:\n" ++ L] else []) ++
    (if M ≠ [] then [S "ПОСЛЕДНИЕ СООБЩЕНИЯ В ЧАТЕ:\n" ++ M] else [])) = B
  cases B with
  | nil => rfl
  | cons b bs => rw [pyJoin_map_append_nl (b :: bs) (by simp)]

lemma isDocxPath_profile_file (p fn : PyStr) (h5 : 5 ≤ fn.length)
    (hfn : isDocxPath fn = true) : isDocxPath (p ++ S "/" ++ fn) = true := by
  rw [isDocxPath_append (p ++ S "/") fn h5, hfn]

lemma add_to_library_step (st : Store) (profile text : PyStr)
    (now : PyDateTime) :
    (add_to_library st profile text now).1 =
      storePut st (profile ++ S "/" ++ S "library.docx")
        (RFile.docx (splitNL (if docVal st profile (S "library.docx") = []
          then text
          else docVal st profile (S "library.docx") ++ S "\n\n[" ++
            fmtTimestamp now ++ S "] ДОБАВЛЕНО:\n" ++ text))) := by
  unfold add_to_library
  rw [read_profile_file_library]
  dsimp only
  unfold save_profile_file write_file
  rw [library_path_concat,
    if_pos (isDocxPath_profile_file profile (S "library.docx") (by decide)
      (by decide))]
  unfold write_docx ensure_folder_exists
  dsimp only
  by_cases h : docVal st profile (S "library.docx") = [] <;> simp [h]

lemma docVal_after_put_docx (st : Store) (profile : PyStr) (ps : List PyStr) :
    docVal (storePut st (profile ++ S "/" ++ S "library.docx")
        (RFile.docx ps)) profile (S "library.docx") =
      (if pyJoin (S "\n") ps = [] then [] else pyJoin (S "\n") ps) := by
  unfold docVal read_file
  rw [if_pos (isDocxPath_profile_file profile (S "library.docx") (by decide)
    (by decide))]
  unfold read_docx
  rw [storePut_same]

/-
Claim theorems.
-/

/-- C1: the claim states that save_message computes the day-partitioned
log path, formats the line and appends it, creating the file when
absent.  The code instead calls _write_text_file(log_path, log_entry,
append=True) while _write_text_file accepts only (remote_path, content):
the call raises TypeError before any write, the surrounding handler
swallows it, and the backend is left untouched — at the concrete failing
input the log file still does not exist afterwards, and in general no
state is ever changed. -/
theorem save_message_writes_nothing :
    save_message emptyStore (S "p") (S "user") (S "hi")
        ⟨2026, 10, 12, 12, 0, 0⟩
        (logPathFor (S "p") ⟨2026, 10, 12, 12, 0, 0⟩) = none ∧
    (∀ st profile role text ts, save_message st profile role text ts = st) :=
  ⟨rfl, fun _ _ _ _ _ => rfl⟩

/-- C2: the claim states that no exception escapes get_recent_messages
or build_context for any current date including the first day of a
month.  On the first day of a month the code computes yesterday via
datetime.replace with day zero, which raises ValueError before any read,
and neither method has a handler, so the error propagates to the
caller. -/
theorem get_recent_messages_raises_on_month_start :
    get_recent_messages emptyStore (S "p") 10 ⟨2026, 3, 1, 9, 0, 0⟩ =
      Except.error PyError.valueError ∧
    build_context emptyStore (S "p") 10 ⟨2026, 3, 1, 9, 0, 0⟩ =
      Except.error PyError.valueError :=
  ⟨rfl, rfl⟩

/-- C3 counterexample: with limit zero and a stored log of two lines,
get_recent_messages returns both lines, not at most zero of them: the
Python slice lines[-0:] is the whole list. -/
theorem recent_limit_zero_counterexample :
    get_recent_messages
      (storePut emptyStore (logPathFor (S "p") ⟨2026, 10, 12, 0, 0, 0⟩)
        (RFile.txt (utf8Encode (S "a\nb"))))
      (S "p") 0 ⟨2026, 10, 12, 0, 0, 0⟩ = Except.ok (S "a\nb") ∧
    S "a\nb" ≠ ([] : PyStr) := by
  constructor
  · rfl
  · decide

/-- C3 amended: for every positive limit (the code returns all lines
when limit is zero), on a valid current date that is not the first of
its month, get_recent_messages consults today's log file, falls back to
yesterday's when today's is empty or absent, returns the empty string
when both are empty, and otherwise strips the found content, splits it
on newline and returns the last at-most-limit lines re-joined with
newline in original order. -/
theorem get_recent_messages_tail_spec (st : Store) (p : PyStr)
    (limit : Nat) (now : PyDateTime) (h2 : 2 ≤ now.day)
    (hv : now.day ≤ daysInMonth now.year now.month) (hl : 0 < limit) :
    get_recent_messages st p limit now =
      Except.ok (recentTailSpec (readOrEmpty st (logPathFor p now))
        (readOrEmpty st (logPathFor p
          ⟨now.year, now.month, now.day - 1, now.hour, now.minute,
            now.second⟩)) limit) :=
  get_recent_messages_ok st p limit now h2 hv hl

/-- C3 witness: the five-line log with limit three returns exactly the
last three lines in original order. -/
theorem get_recent_messages_tail_spec_witness :
    get_recent_messages
      (storePut emptyStore (logPathFor (S "p") ⟨2026, 10, 12, 0, 0, 0⟩)
        (RFile.txt (utf8Encode (S "l1\nl2\nl3\nl4\nl5"))))
      (S "p") 3 ⟨2026, 10, 12, 0, 0, 0⟩ = Except.ok (S "l3\nl4\nl5") := by
  rw [get_recent_messages_tail_spec _ _ _ _ (by decide) (by decide) (by decide)]
  exact congrArg Except.ok (by decide)

/-- C4: _fallback_decode coincides extensionally with the decoder the
claim describes: try utf-8, windows-1251, koi8-r, cp866 and iso-8859-5
in that order, return the first success with its leading byte-order-mark
stripped, and if none of the five succeeds decode as utf-8 with
replacement characters.  The two differ syntactically only in the
never-succeeds branch — the code ignores undecodable bytes there rather
than replacing them — and that branch is unreachable because koi8-r
decodes every byte string. -/
theorem fallback_decode_matches_claim (bs : List Byte) :
    fallback_decode bs = fallbackDecodeClaim bs := by
  unfold fallback_decode fallbackDecodeClaim
  cases h : tryEncodings fallbackEncodings bs with
  | some c => rfl
  | none => exact absurd h (tryEncodings_fallback_ne_none bs)


/-- C5: for every backend state and profile name, get_profile_files
returns exactly the five fixed keys key, king, rules, library, welcome
in that order, each bound to the read content when truthy and to the
empty string otherwise — never to an absent value. -/
theorem get_profile_files_five_keys (st : Store) (profile : PyStr) :
    get_profile_files st profile =
      [(S "key", docVal st profile (S "key.docx")),
       (S "king", docVal st profile (S "king.docx")),
       (S "rules", docVal st profile (S "rules.docx")),
       (S "library", docVal st profile (S "library.docx")),
       (S "welcome", docVal st profile (S "welcome.docx"))] :=
  get_profile_files_spec st profile

/-- C6: whenever the log-tail read returns normally, build_context
returns exactly the specification-worded composition: the labeled
persona, rules, knowledge and recent-messages blocks in fixed order,
every block whose source is empty omitted entirely, the blocks joined
with a blank line between them. -/
theorem build_context_matches_spec (st : Store) (profile : PyStr)
    (limit : Nat) (now : PyDateTime) (r : PyStr)
    (hr : get_recent_messages st profile limit now = Except.ok r) :
    build_context st profile limit now =
      Except.ok (buildContextSpec (docVal st profile (S "king.docx"))
        (docVal st profile (S "rules.docx"))
        (docVal st profile (S "library.docx")) r) := by
  unfold build_context
  dsimp only
  rw [lookupVal_king, lookupVal_rules, lookupVal_library, hr]
  dsimp only
  rw [buildContextSpec_eq_join]
  by_cases h1 : docVal st profile (S "king.docx") = [] <;>
    by_cases h2 : docVal st profile (S "rules.docx") = [] <;>
      by_cases h3 : docVal st profile (S "library.docx") = [] <;>
        by_cases h4 : r = [] <;>
          simp [h1, h2, h3, h4, pyJoin, List.append_assoc]

/-- C6 witness: the all-empty profile with no log history yields the
empty context. -/
theorem build_context_matches_spec_witness :
    build_context emptyStore (S "p") 10 ⟨2026, 10, 12, 0, 0, 0⟩ =
      Except.ok [] := by
  rw [build_context_matches_spec emptyStore (S "p") 10
    ⟨2026, 10, 12, 0, 0, 0⟩ [] rfl]
  exact congrArg Except.ok (by decide)

/-- C7 counterexample: the path x.DOCX does not end in the lower-case
suffix .docx, yet write_file stores a rich document there, because the
dispatch lower-cases the path first; the claim that exactly the paths
ending in .docx reach the rich-document side is therefore false as
stated. -/
theorem write_file_uppercase_docx_counterexample :
    (write_file emptyStore (S "x.DOCX") (S "a")).1 (S "x.DOCX") =
      some (RFile.docx [S "a"]) ∧
    pyEndsWith (S "x.DOCX") (S ".docx") = false := by
  constructor
  · rfl
  · decide

/-- C7 amended: read_file and write_file dispatch on the same
case-insensitive condition — the lower-cased path ending in .docx goes
through the rich-document side, every other path through the plain-text
side — and an absent remote object reads as None rather than as an
error. -/
theorem read_write_dispatch (st : Store) (path : PyStr) :
    (st path = none → read_file st path = none) ∧
    (isDocxPath path = true →
      read_file st path = read_docx st path ∧
      ∀ c, write_file st path c = write_docx st path c) ∧
    (isDocxPath path = false →
      read_file st path = readTextFile st path ∧
      ∀ c, write_file st path c = writeTextFile st path c) := by
  refine ⟨?_, ?_, ?_⟩
  · intro h
    unfold read_file
    by_cases hd : isDocxPath path
    · rw [if_pos hd]
      unfold read_docx
      rw [h]
    · rw [if_neg hd]
      unfold readTextFile
      rw [h]
  · intro h
    refine ⟨?_, fun c => ?_⟩
    · unfold read_file
      rw [if_pos h]
    · unfold write_file
      rw [if_pos h]
  · intro h
    refine ⟨?_, fun c => ?_⟩
    · unfold read_file
      rw [if_neg (by simp [h])]
    · unfold write_file
      rw [if_neg (by simp [h])]

/-- C7 witness: an absent plain-text object reads as None. -/
theorem read_write_dispatch_witness :
    read_file emptyStore (S "a.txt") = none :=
  (read_write_dispatch emptyStore (S "a.txt")).1 rfl

/-- C8: writing an ASCII text to a non-docx path and reading the same
path back yields the text unchanged, the backend storing the uploaded
bytes faithfully. -/
theorem text_roundtrip_ascii (st : Store) (path T : PyStr)
    (hp : isDocxPath path = false) (hT : ∀ c ∈ T, c < 128) :
    read_file ((write_file st path T).1) path = some T := by
  unfold write_file
  rw [if_neg (by simp [hp])]
  unfold writeTextFile ensure_folder_exists
  dsimp only
  unfold read_file
  rw [if_neg (by simp [hp])]
  unfold readTextFile
  rw [storePut_same]
  unfold fallback_decode
  have h1 : decodeUtf8 (utf8Encode T) = some T := utf8_roundtrip_ascii T hT
  simp only [fallbackEncodings, tryEncodings, h1]
  rw [stripBOM_ascii T hT]

/-- C8 witness: the round trip at a concrete path and text. -/
theorem text_roundtrip_ascii_witness :
    read_file ((write_file emptyStore (S "notes.txt") (S "hello")).1)
      (S "notes.txt") = some (S "hello") :=
  text_roundtrip_ascii emptyStore (S "notes.txt") (S "hello") (by decide)
    (by decide)

/-- C9: add_to_library writes back the new text alone when the current
library content is empty, and otherwise the current content followed by
a blank line, a timestamped marker line and the new text; consequently
two calls with texts A then B on an initially empty library leave the
library reading as A followed by the timestamped block containing B. -/
theorem add_to_library_appends (st : Store) (profile : PyStr) :
    (∀ text now, (add_to_library st profile text now).1 =
      storePut st (profile ++ S "/" ++ S "library.docx")
        (RFile.docx (splitNL (if docVal st profile (S "library.docx") = []
          then text
          else docVal st profile (S "library.docx") ++ S "\n\n[" ++
            fmtTimestamp now ++ S "] ДОБАВЛЕНО:\n" ++ text)))) ∧
    (∀ A B ts1 ts2, A ≠ [] → docVal st profile (S "library.docx") = [] →
      read_file ((add_to_library ((add_to_library st profile A ts1).1)
          profile B ts2).1) (profile ++ S "/" ++ S "library.docx") =
        some (A ++ S "\n\n[" ++ fmtTimestamp ts2 ++ S "] ДОБАВЛЕНО:\n" ++ B)) := by
  constructor
  · exact fun text now => add_to_library_step st profile text now
  · intro A B ts1 ts2 hA hcur
    rw [add_to_library_step st profile A ts1, hcur, if_pos rfl]
    rw [add_to_library_step _ profile B ts2]
    rw [docVal_after_put_docx st profile (splitNL A), pyJoin_splitNL A,
      if_neg hA, if_neg hA]
    unfold read_file
    rw [if_pos (isDocxPath_profile_file profile (S "library.docx") (by decide)
      (by decide))]
    unfold read_docx
    rw [storePut_same]
    dsimp only
    rw [pyJoin_splitNL]

/-- C9 witness: the two-call scenario at concrete texts and
timestamps. -/
theorem add_to_library_appends_witness :
    read_file ((add_to_library
        ((add_to_library emptyStore (S "p") (S "A") ⟨2026, 1, 2, 3, 4, 5⟩).1)
        (S "p") (S "B") ⟨2026, 6, 7, 8, 9, 10⟩).1)
      (S "p" ++ S "/" ++ S "library.docx") =
      some (S "A" ++ S "\n\n[" ++ fmtTimestamp ⟨2026, 6, 7, 8, 9, 10⟩ ++
        S "] ДОБАВЛЕНО:\n" ++ S "B") :=
  (add_to_library_appends emptyStore (S "p")).2 (S "A") (S "B")
    ⟨2026, 1, 2, 3, 4, 5⟩ ⟨2026, 6, 7, 8, 9, 10⟩ (by decide) (by decide)

/-- C10: writing any text to a path with write_docx, one paragraph per
newline-separated line, and reading the path back with read_docx, the
paragraph texts joined with newline, yields the text unchanged: the
writer's split and the reader's join are inverse. -/
theorem docx_roundtrip (st : Store) (path T : PyStr) :
    read_docx ((write_docx st path T).1) path = some T := by
  unfold write_docx ensure_folder_exists
  dsimp only
  unfold read_docx
  rw [storePut_same]
  dsimp only
  rw [pyJoin_splitNL]
